import Mathlib

/- Verification development for the ClawdBody provisioning orchestrator.

   Shallow embedding of:
   - the AWS setup pipeline (`runAWSSetupProcess`, src/lib/aws-setup-process.ts),
   - the Orgo reprovision trigger and pipeline (`POST` / `runReprovisionProcess`,
     src/app/api/setup/anthropic-key/route.ts),
   - the status query (`GET`, src/app/api/setup/status/route.ts),
   - the API-key status endpoint (`GET`, src/app/api/setup/anthropic-key/route.ts).

   External collaborators (provider clients, encryption, the DB) are modelled as
   oracles: an environment record fixes the outcome of every external call, and a
   pipeline run is a pure function of the environment and the initial persisted
   state, returning the final persisted state together with the ordered trace of
   provider calls and status-store writes. -/

namespace Clawd

/-- An error thrown by a provider call or remote step: the message and an
    optional provider error code (`error.Code` in the source). -/
structure Err where
  message : String
  code : Option String := none
deriving Repr, DecidableEq

/-- JS truthiness of an optional string (`null`/`undefined` and `""` are falsy). -/
def optTruthy : Option String → Bool
  | some s => s ≠ ""
  | none => false

/-- JS `a || b` on two optional strings (empty string is falsy). -/
def optOr (a b : Option String) : Option String :=
  if optTruthy a then a else b

/-- JS `a || b` where `b` is a plain string. -/
def strOr (a : Option String) (b : String) : String :=
  match a with
  | some s => if s = "" then b else s
  | none => b

/-- JS `String.prototype.includes`. -/
def strIncludes (s pat : String) : Bool :=
  decide (pat.toList <:+: s.toList)

/-- The Free Tier (capacity/billing restriction) recognizer from the `catch`
    block of `runAWSSetupProcess` (src/lib/aws-setup-process.ts:271-273). -/
def isFreeTierError (e : Err) : Bool :=
  strIncludes e.message "not eligible for Free Tier" ||
  strIncludes e.message "Free Tier" ||
  (e.code == some "InvalidParameterCombination" && strIncludes e.message "Free Tier")

/-- Timeout-class recognizer from the reprovision creation retry loop
    (src/app/api/setup/anthropic-key/route.ts:402). -/
def isTimeoutError (e : Err) : Bool :=
  strIncludes e.message "timed out" || strIncludes e.message "ETIMEDOUT"

/-- Persisted status record: the fields of `SetupState` (and of the mirrored
    `VM` record) that the orchestrator reads or writes. -/
structure Store where
  status : String
  vmCreated : Bool
  clawdbotInstalled : Bool
  telegramConfigured : Bool
  gatewayStarted : Bool
  errorMessage : Option String
  awsInstanceId : Option String
  awsInstanceName : Option String
  awsPublicIp : Option String
  awsPrivateKey : Option String
  orgoProjectId : Option String
  orgoComputerId : Option String
  orgoComputerUrl : Option String
  vmStatus : Option String
deriving Repr, DecidableEq

/-- A partial update passed to `updateStatus`: `none` means the field is absent
    from the update object (prisma skips it). -/
structure Updates where
  status : Option String := none
  vmCreated : Option Bool := none
  clawdbotInstalled : Option Bool := none
  telegramConfigured : Option Bool := none
  gatewayStarted : Option Bool := none
  errorMessage : Option String := none
  awsInstanceId : Option String := none
  awsInstanceName : Option String := none
  awsPublicIp : Option String := none
  awsPrivateKey : Option String := none
  orgoProjectId : Option String := none
  orgoComputerId : Option String := none
  orgoComputerUrl : Option String := none
  vmStatus : Option String := none
deriving Repr, DecidableEq

/-- Apply a partial update to the `SetupState` record. -/
def Store.apply (s : Store) (u : Updates) : Store where
  status := u.status.getD s.status
  vmCreated := u.vmCreated.getD s.vmCreated
  clawdbotInstalled := u.clawdbotInstalled.getD s.clawdbotInstalled
  telegramConfigured := u.telegramConfigured.getD s.telegramConfigured
  gatewayStarted := u.gatewayStarted.getD s.gatewayStarted
  errorMessage := (u.errorMessage.map some).getD s.errorMessage
  awsInstanceId := (u.awsInstanceId.map some).getD s.awsInstanceId
  awsInstanceName := (u.awsInstanceName.map some).getD s.awsInstanceName
  awsPublicIp := (u.awsPublicIp.map some).getD s.awsPublicIp
  awsPrivateKey := (u.awsPrivateKey.map some).getD s.awsPrivateKey
  orgoProjectId := (u.orgoProjectId.map some).getD s.orgoProjectId
  orgoComputerId := (u.orgoComputerId.map some).getD s.orgoComputerId
  orgoComputerUrl := (u.orgoComputerUrl.map some).getD s.orgoComputerUrl
  vmStatus := (u.vmStatus.map some).getD s.vmStatus

/-- Apply a partial update to the mirrored `VM` record: identical except that
    `vmStatus` is never mirrored (`updateStatus` only copies the listed keys). -/
def Store.applyVm (s : Store) (u : Updates) : Store :=
  { s.apply u with vmStatus := s.vmStatus }

/-- The pair of persisted records a pipeline writes through `updateStatus`:
    the per-user `SetupState`, and the per-sandbox `VM` record when a `vmId`
    was supplied. -/
structure State where
  setup : Store
  vm : Option Store
deriving Repr, DecidableEq

/-- `updateStatus`: writes the update to `SetupState` and mirrors it into the
    `VM` record when present. -/
def State.upd (st : State) (u : Updates) : State where
  setup := st.setup.apply u
  vm := st.vm.map (fun v => v.applyVm u)

/-- Observable events of a pipeline run, in execution order: provider calls
    and status-store writes. -/
inductive Ev where
  | write (u : Updates)
  | createInstance (name itype : String)
  | getInstance (id : String)
  | deleteComputer (id : String)
  | listProjects
  | createProject (name : String)
  | createComputer (project name : String) (ram cpu : Nat)
  | listComputers (project : String)
  | waitForReady (id : String) (maxAttempts intervalMs : Nat)
  | sleep (ms : Nat)
  | vmSetupAws (instanceId privateKey : String)
  | vmSetupOrgo (computerId : String)
  | installPython
  | installSdk
  | installClawdbot
  | verifyInstall
  | setupTelegram (token : String)
  | startGateway
  | storeKey (provider : String)
deriving Repr, DecidableEq

/-- The status-store writes of a trace, in order. -/
def writesOf (tr : List Ev) : List Updates :=
  tr.filterMap (fun e => match e with | .write u => some u | _ => none)

/-- Replay the writes of a trace onto a state. -/
def applyEvs (st : State) (tr : List Ev) : State :=
  tr.foldl (fun s e => match e with | .write u => s.upd u | _ => s) st

/-- Provider-side instance description (id, name, optional public IP). -/
structure InstInfo where
  id : String
  name : String
  publicIp : Option String := none
deriving Repr, DecidableEq

/-- Result of `installClawdbot`. -/
structure ClawdRes where
  success : Bool
  version : Option String := none
deriving Repr, DecidableEq

/-- Result of `verifyClawdbotInstalled` (custom-AMI path). -/
structure VerifyRes where
  installed : Bool
  version : Option String := none
deriving Repr, DecidableEq

/-- The `VM` record fields `runAWSSetupProcess` reads from the `vmId` lookup. -/
structure ExistingVM where
  awsInstanceId : Option String
  vmCreated : Bool
  awsInstanceName : Option String
  name : String
  awsPublicIp : Option String
  awsPrivateKey : Option String
deriving Repr, DecidableEq

/-- Oracle for every external call `runAWSSetupProcess` makes.  `sanitizeName`,
    `encrypt` and `decrypt` are repo/collaborator functions not under src/ and
    are carried as uninterpreted functions. -/
structure AwsEnv where
  existingVM : Option ExistingVM
  getInstanceReuse : Except Err InstInfo
  createInstanceRes : Except Err (InstInfo × String)
  getInstanceAfterBoot : Except Err InstInfo
  getInstanceForIp : Except Err InstInfo
  customAmiId : Option String
  verifyRes : Except Err VerifyRes
  installPythonRes : Except Err Bool
  installClawdbotRes : Except Err ClawdRes
  telegramBotToken : Option String
  envTelegramBotToken : Option String
  setupTelegramRes : Except Err Bool
  startGatewayRes : Except Err Bool
  decrypt : String → String
  encrypt : String → String
  sanitizeName : String → String
  now : Nat

/-- Resource acquisition phase of `runAWSSetupProcess`
    (src/lib/aws-setup-process.ts:91-155): reuse the stored instance when the
    `VM` record has a truthy `awsInstanceId` and `vmCreated`, otherwise create
    a new instance, wait for boot, and refresh the public IP. -/
def awsAcquire (env : AwsEnv) (awsInstanceType : String) (st : State) :
    State × List Ev × Except Err (InstInfo × String) :=
  let createNew : State × List Ev × Except Err (InstInfo × String) :=
    let u1 : Updates := { status := some "provisioning", vmStatus := some "creating" }
    let st1 := st.upd u1
    let instanceName :=
      match env.existingVM with
      | some ev => if ev.name ≠ "" then env.sanitizeName ev.name
                   else "clawdbot-" ++ toString env.now
      | none => "clawdbot-" ++ toString env.now
    match env.createInstanceRes with
    | .error e => (st1, [.write u1, .createInstance instanceName awsInstanceType], .error e)
    | .ok cr =>
      let inst0 := cr.1
      let pk := cr.2
      let u2 : Updates :=
        { awsInstanceId := some inst0.id, awsInstanceName := some inst0.name,
          awsPublicIp := inst0.publicIp, awsPrivateKey := some (env.encrypt pk),
          vmStatus := some "starting" }
      let st2 := st1.upd u2
      let bootMs := if optTruthy env.customAmiId then 15000 else 30000
      match env.getInstanceAfterBoot with
      | .error e =>
        (st2, [.write u1, .createInstance instanceName awsInstanceType, .write u2,
               .sleep bootMs, .getInstance inst0.id], .error e)
      | .ok upd0 =>
        let u3 : Updates :=
          { awsPublicIp := upd0.publicIp, vmCreated := some true, vmStatus := some "running" }
        (st2.upd u3,
         [.write u1, .createInstance instanceName awsInstanceType, .write u2,
          .sleep bootMs, .getInstance inst0.id, .write u3],
         .ok (inst0, pk))
  match env.existingVM with
  | some ev =>
    match ev.awsInstanceId with
    | some iid =>
      if iid ≠ "" && ev.vmCreated then
        match env.getInstanceReuse with
        | .error e => (st, [.getInstance iid], .error e)
        | .ok awsInst =>
          let inst : InstInfo :=
            { id := iid, name := strOr ev.awsInstanceName ev.name,
              publicIp := optOr ev.awsPublicIp awsInst.publicIp }
          let pk := match ev.awsPrivateKey with
            | some k => if k = "" then "" else env.decrypt k
            | none => ""
          let u : Updates :=
            { status := some "configuring_vm", awsInstanceId := some inst.id,
              awsInstanceName := some inst.name, awsPublicIp := inst.publicIp,
              vmStatus := some "running", vmCreated := some true }
          (st.upd u, [.getInstance iid, .write u], .ok (inst, pk))
      else createNew
    | none => createNew
  | none => createNew

/-- Configuration phase of `runAWSSetupProcess`
    (src/lib/aws-setup-process.ts:157-231): write `configuring_vm`, resolve the
    SSH address, then either the custom-AMI shortcut or the full install
    sequence.  Returns the `clawdbotResult`. -/
def awsInstall (env : AwsEnv) (st : State) (inst : InstInfo) (pk : String) :
    State × List Ev × Except Err ClawdRes :=
  let u4 : Updates := { status := some "configuring_vm" }
  let st4 := st.upd u4
  let ipPart : List Ev × Except Err (Option String) :=
    if optTruthy inst.publicIp then ([], .ok inst.publicIp)
    else
      match env.getInstanceForIp with
      | .error e => ([.getInstance inst.id], .error e)
      | .ok i2 => ([.getInstance inst.id], .ok i2.publicIp)
  match ipPart.2 with
  | .error e => (st4, [.write u4] ++ ipPart.1, .error e)
  | .ok _ =>
    let evs0 := [.write u4] ++ ipPart.1 ++ [Ev.vmSetupAws inst.id pk]
    if optTruthy env.customAmiId then
      let u5 : Updates := { clawdbotInstalled := some true }
      let st5 := st4.upd u5
      let res : ClawdRes :=
        match env.verifyRes with
        | .ok v => { success := true, version := some (strOr v.version "2026.1.22") }
        | .error _ => { success := true, version := some "2026.1.22" }
      (st5, evs0 ++ [.write u5, .verifyInstall], .ok res)
    else
      match env.installPythonRes with
      | .error e => (st4, evs0 ++ [.installPython], .error e)
      | .ok false =>
        (st4, evs0 ++ [.installPython],
         .error { message := "Failed to install Python and essential tools on VM" })
      | .ok true =>
        match env.installClawdbotRes with
        | .error e => (st4, evs0 ++ [.installPython, .installSdk, .installClawdbot], .error e)
        | .ok r =>
          if r.success then
            let u6 : Updates := { clawdbotInstalled := some true }
            (st4.upd u6, evs0 ++ [.installPython, .installSdk, .installClawdbot, .write u6],
             .ok r)
          else
            (st4, evs0 ++ [.installPython, .installSdk, .installClawdbot],
             .error { message := "Failed to install Clawdbot" })

/-- Messaging phase of `runAWSSetupProcess`
    (src/lib/aws-setup-process.ts:233-262): configure Telegram and start the
    gateway only when a token is available; otherwise do nothing. -/
def awsMessaging (env : AwsEnv) (st : State) : State × List Ev × Except Err Unit :=
  let tok := optOr env.telegramBotToken env.envTelegramBotToken
  match tok with
  | some t =>
    if t ≠ "" then
      match env.setupTelegramRes with
      | .error e => (st, [.setupTelegram t], .error e)
      | .ok tsucc =>
        let u7 : Updates := { telegramConfigured := some tsucc }
        let st7 := st.upd u7
        if tsucc then
          match env.startGatewayRes with
          | .error e => (st7, [.setupTelegram t, .write u7, .startGateway], .error e)
          | .ok g =>
            let u8 : Updates := { gatewayStarted := some g }
            (st7.upd u8, [.setupTelegram t, .write u7, .startGateway, .write u8], .ok ())
        else (st7, [.setupTelegram t, .write u7], .ok ())
    else (st, [], .ok ())
  | none => (st, [], .ok ())

/-- The update written on successful completion. -/
def readyUpd : Updates := { status := some "ready" }

/-- The `try` body of `runAWSSetupProcess`: acquisition, configuration,
    messaging, then the final `ready` write. -/
def awsBody (env : AwsEnv) (awsInstanceType : String) (st : State) :
    State × List Ev × Except Err Unit :=
  match awsAcquire env awsInstanceType st with
  | (st1, tr1, .error e) => (st1, tr1, .error e)
  | (st1, tr1, .ok ip) =>
    match awsInstall env st1 ip.1 ip.2 with
    | (st2, tr2, .error e) => (st2, tr1 ++ tr2, .error e)
    | (st2, tr2, .ok _) =>
      match awsMessaging env st2 with
      | (st3, tr3, .error e) => (st3, tr1 ++ tr2 ++ tr3, .error e)
      | (st3, tr3, .ok _) =>
        (st3.upd readyUpd, tr1 ++ tr2 ++ tr3 ++ [.write readyUpd], .ok ())

/-- `runAWSSetupProcess` with its `catch` handler
    (src/lib/aws-setup-process.ts:267-286): Free Tier errors map to
    `requires_payment` with the `BILLING_REQUIRED:` sentinel carrying the
    requested instance type; every other error maps to `failed` with the
    captured message. -/
def awsRun (env : AwsEnv) (awsInstanceType : String) (st : State) : State × List Ev :=
  match awsBody env awsInstanceType st with
  | (st', tr, .ok _) => (st', tr)
  | (st', tr, .error e) =>
    if isFreeTierError e then
      let u : Updates :=
        { status := some "requires_payment",
          errorMessage := some ("BILLING_REQUIRED:" ++ awsInstanceType) }
      (st'.upd u, tr ++ [.write u])
    else
      let u : Updates := { status := some "failed", errorMessage := some e.message }
      (st'.upd u, tr ++ [.write u])

/-- An Orgo project (id, name). -/
structure Project where
  id : String
  name : String
deriving Repr, DecidableEq

/-- An Orgo computer as returned by `createComputer` / `listComputers`. -/
structure Computer where
  id : String
  name : String
  url : String
deriving Repr, DecidableEq

/-- Oracle for every external call the reprovision pipeline makes.  Creation
    and discovery are indexed by the attempt number of the retry loop. -/
structure RepEnv where
  deleteRes : Except Err Unit
  listProjectsRes : Except Err (List Project)
  createProjectRes : Except Err Project
  existingVMName : Option String
  createAttempt : Nat → Except Err Computer
  listComputersAttempt : Nat → Except Err (List Computer)
  waitReadyOk : Bool
  installPythonRes : Except Err Bool
  diagInfo : String
  installClawdbotRes : Except Err ClawdRes
  envTelegramBotToken : Option String
  setupTelegramRes : Except Err Bool
  startGatewayRes : Except Err Bool
  storeKeyRes : Except Err Unit
  sanitizeName : String → String

/-- The status reset the reprovision trigger performs after validation and
    before launching the pipeline
    (src/app/api/setup/anthropic-key/route.ts:231-256): status `provisioning`,
    `errorMessage` cleared to null, all four lifecycle flags false — on the
    `SetupState` record and, when a `vmId` was supplied, on the `VM` record. -/
def reprovisionReset (st : State) : State where
  setup := { st.setup with
    status := "provisioning", errorMessage := none, vmCreated := false,
    clawdbotInstalled := false, telegramConfigured := false, gatewayStarted := false }
  vm := st.vm.map (fun v => { v with
    status := "provisioning", errorMessage := none, vmCreated := false,
    clawdbotInstalled := false, telegramConfigured := false, gatewayStarted := false })

/-- Best-effort delete of the old computer plus the clear of the old handle
    (src/app/api/setup/anthropic-key/route.ts:339-356).  The delete is wrapped
    in try/catch and its outcome is ignored, so `deleteRes` is not consulted. -/
def repDelete (oldComputerId : Option String) (st : State) : State × List Ev :=
  let evs : List Ev := if optTruthy oldComputerId then [.deleteComputer (oldComputerId.getD "")] else []
  let u : Updates := { orgoComputerId := some "", orgoComputerUrl := some "", vmStatus := some "creating" }
  (st.upd u, evs ++ [.write u])

/-- Project resolution (src/app/api/setup/anthropic-key/route.ts:361-373):
    list projects (a throw here escapes to the catch), take the one matching
    the stored name or a synthetic `{id:'', name}`, create it when the id is
    empty (creation failure falls back to the synthetic project), then record
    the project id. -/
def repProject (env : RepEnv) (projectName : String) (st : State) :
    State × List Ev × Except Err Project :=
  match env.listProjectsRes with
  | .error e => (st, [.listProjects], .error e)
  | .ok ps =>
    let p0 := (ps.find? (fun p => p.name == projectName)).getD { id := "", name := projectName }
    let created : List Ev × Project :=
      if p0.id = "" then
        match env.createProjectRes with
        | .ok p1 => ([.createProject projectName], p1)
        | .error _ => ([.createProject projectName], { id := "", name := projectName })
      else ([], p0)
    let u : Updates := { orgoProjectId := some created.2.id }
    (st.upd u, [.listProjects] ++ created.1 ++ [.write u], .ok created.2)

/-- The creation retry loop (src/app/api/setup/anthropic-key/route.ts:385-421):
    up to `fuel` attempts; on a timeout-class error wait 5s, list the project's
    computers and adopt one matching the requested name; otherwise sleep 3s
    between attempts; `lastErr` tracks the last creation error. -/
def createLoop (env : RepEnv) (projectIdOrName projectNameForList computerName : String)
    (ram cpu : Nat) : Nat → Nat → Option Err → List Ev × Option Computer × Option Err
  | 0, _, lastErr => ([], none, lastErr)
  | r + 1, i, _ =>
    match env.createAttempt i with
    | .ok c => ([.createComputer projectIdOrName computerName ram cpu], some c, none)
    | .error e =>
      let base : List Ev := [.createComputer projectIdOrName computerName ram cpu]
      let disc : List Ev × Option Computer :=
        if isTimeoutError e then
          match env.listComputersAttempt i with
          | .ok cs =>
            ([.sleep 5000, .listComputers projectNameForList],
             cs.find? (fun c => c.name == computerName))
          | .error _ => ([.sleep 5000, .listComputers projectNameForList], none)
        else ([], none)
      match disc.2 with
      | some c => (base ++ disc.1, some c, some e)
      | none =>
        let pause : List Ev := if r > 0 then [.sleep 3000] else []
        let rest := createLoop env projectIdOrName projectNameForList computerName ram cpu r (i + 1) (some e)
        (base ++ disc.1 ++ pause ++ rest.1, rest.2.1, rest.2.2)

/-- The requested computer name
    (src/app/api/setup/anthropic-key/route.ts:376-382): the sanitized stored
    VM name when a `vmId` resolved to a record with a truthy name, the
    sanitized project name otherwise. -/
def repComputerName (env : RepEnv) (projectName : String) (hasVm : Bool) : String :=
  if hasVm then
    match env.existingVMName with
    | some n => if n ≠ "" then env.sanitizeName n else env.sanitizeName projectName
    | none => env.sanitizeName projectName
  else env.sanitizeName projectName

/-- Acquisition: project resolution then the creation retry loop
    (src/app/api/setup/anthropic-key/route.ts:358-424); exhausting the retries
    surfaces the last creation error (or the fallback message). -/
def repAcquire (env : RepEnv) (projectName : String) (hasVm : Bool)
    (orgoRam orgoCpu : Nat) (st : State) : State × List Ev × Except Err Computer :=
  match repProject env projectName st with
  | (st2, tr2, .error e) => (st2, tr2, .error e)
  | (st2, tr2, .ok project) =>
    let computerName := repComputerName env projectName hasVm
    let lp := createLoop env (strOr (some project.id) project.name)
      (strOr (some project.name) projectName) computerName orgoRam orgoCpu 3 0 none
    match lp.2.1 with
    | none =>
      (st2, tr2 ++ lp.1,
       .error ((lp.2.2).getD { message := "Failed to create new computer after retries" }))
    | some c => (st2, tr2 ++ lp.1, .ok c)

/-- Configuration of the acquired computer
    (src/app/api/setup/anthropic-key/route.ts:427-508): record the handle,
    wait for readiness (non-fatal) plus the 15s grace sleep, mark
    `vmCreated`, run the install sequence, then messaging (gateway only after
    a successful Telegram setup) or, with no token configured, persist the AI
    key alone, and finally write `ready`. -/
def repConfigure (env : RepEnv) (aiProvider : String) (c : Computer) (st2 : State) :
    State × List Ev × Except Err Unit :=
  let u1 : Updates :=
    { orgoComputerId := some c.id, orgoComputerUrl := some c.url, vmStatus := some "starting" }
  let st3 := st2.upd u1
  let u2 : Updates := { vmCreated := some true, vmStatus := some "running" }
  let st4 := st3.upd u2
  let u3 : Updates := { status := some "configuring_vm" }
  let st5 := st4.upd u3
  let evs1 : List Ev := [.write u1, .waitForReady c.id 30 5000, .sleep 15000,
                         .write u2, .write u3, .vmSetupOrgo c.id]
  match env.installPythonRes with
  | .error e => (st5, evs1 ++ [.installPython], .error e)
  | .ok false =>
    (st5, evs1 ++ [.installPython],
     .error { message :=
       "Failed to install Python and essential tools on VM. Diagnostics: " ++ env.diagInfo })
  | .ok true =>
    match env.installClawdbotRes with
    | .error e => (st5, evs1 ++ [.installPython, .installSdk, .installClawdbot], .error e)
    | .ok r =>
      if r.success then
        let u4 : Updates := { clawdbotInstalled := some true }
        let st6 := st5.upd u4
        let evs2 := evs1 ++ [.installPython, .installSdk, .installClawdbot, .write u4]
        match env.envTelegramBotToken with
        | some t =>
          if t ≠ "" then
            match env.setupTelegramRes with
            | .error e => (st6, evs2 ++ [.setupTelegram t], .error e)
            | .ok tsucc =>
              let u5 : Updates := { telegramConfigured := some tsucc }
              let st7 := st6.upd u5
              if tsucc then
                match env.startGatewayRes with
                | .error e => (st7, evs2 ++ [.setupTelegram t, .write u5, .startGateway], .error e)
                | .ok g =>
                  let u6 : Updates := { gatewayStarted := some g }
                  let st8 := st7.upd u6
                  (st8.upd readyUpd,
                   evs2 ++ [.setupTelegram t, .write u5, .startGateway, .write u6,
                            .write readyUpd],
                   .ok ())
              else
                ((st7.upd readyUpd),
                 evs2 ++ [.setupTelegram t, .write u5, .write readyUpd], .ok ())
          else
            match env.storeKeyRes with
            | .error e => (st6, evs2 ++ [.storeKey aiProvider], .error e)
            | .ok _ =>
              (st6.upd readyUpd, evs2 ++ [.storeKey aiProvider, .write readyUpd], .ok ())
        | none =>
          match env.storeKeyRes with
          | .error e => (st6, evs2 ++ [.storeKey aiProvider], .error e)
          | .ok _ =>
            (st6.upd readyUpd, evs2 ++ [.storeKey aiProvider, .write readyUpd], .ok ())
      else
        (st5, evs1 ++ [.installPython, .installSdk, .installClawdbot],
         .error { message := "Failed to install Clawdbot" })

/-- The `try` body of `runReprovisionProcess`
    (src/app/api/setup/anthropic-key/route.ts:336-508): best-effort delete,
    clear, acquisition, configuration. -/
def repBody (env : RepEnv) (projectName : String) (oldComputerId : Option String)
    (aiProvider : String) (orgoRam orgoCpu : Nat) (st : State) :
    State × List Ev × Except Err Unit :=
  let d := repDelete oldComputerId st
  match repAcquire env projectName st.vm.isSome orgoRam orgoCpu d.1 with
  | (st2, tr2, .error e) => (st2, d.2 ++ tr2, .error e)
  | (st2, tr2, .ok c) =>
    match repConfigure env aiProvider c st2 with
    | (st3, tr3, r) => (st3, d.2 ++ tr2 ++ tr3, r)

/-- `runReprovisionProcess` with its `catch` handler
    (src/app/api/setup/anthropic-key/route.ts:510-516): any escaped error maps
    to `failed` with the captured message (no billing classification here). -/
def repRun (env : RepEnv) (projectName : String) (oldComputerId : Option String)
    (aiProvider : String) (orgoRam orgoCpu : Nat) (st : State) : State × List Ev :=
  match repBody env projectName oldComputerId aiProvider orgoRam orgoCpu st with
  | (st', tr, .ok _) => (st', tr)
  | (st', tr, .error e) =>
    let u : Updates := { status := some "failed", errorMessage := some e.message }
    (st'.upd u, tr ++ [.write u])

/-- The `VM` record fields the status route reads
    (src/app/api/setup/status/route.ts:32-72). -/
structure VMRec where
  status : String
  vmCreated : Bool
  repoCloned : Bool
  gitSyncConfigured : Bool
  clawdbotInstalled : Bool
  telegramConfigured : Bool
  gatewayStarted : Bool
  errorMessage : Option String
  provider : String
  id : String
  name : String
  awsInstanceId : Option String
  awsInstanceType : Option String
  awsPublicIp : Option String
  awsRegion : Option String
  orgoComputerId : Option String
  orgoComputerUrl : Option String
  orgoProjectId : Option String
  orgoProjectName : Option String
deriving Repr, DecidableEq

/-- The JSON object the status route returns for a `vmId` query.  For the
    provider-specific keys the outer `Option` records whether the key is
    present in the object at all (`none` = absent); the inner value is the
    possibly-null stored field. -/
structure StatusResponse where
  status : String
  vmCreated : Bool
  repoCreated : Bool
  repoCloned : Bool
  gitSyncConfigured : Bool
  clawdbotInstalled : Bool
  telegramConfigured : Bool
  gatewayStarted : Bool
  errorMessage : Option String
  vmProvider : String
  vmId : String
  vmName : String
  awsInstanceId : Option (Option String) := none
  awsInstanceType : Option (Option String) := none
  awsPublicIp : Option (Option String) := none
  awsRegion : Option (Option String) := none
  awsConsoleUrl : Option String := none
  orgoComputerId : Option (Option String) := none
  orgoComputerUrl : Option (Option String) := none
  orgoProjectId : Option (Option String) := none
  orgoProjectName : Option (Option String) := none
deriving Repr, DecidableEq

/-- The AWS console URL built by the status route. -/
def awsConsoleUrlOf (region iid : String) : String :=
  "https://" ++ region ++ ".console.aws.amazon.com/ec2/home?region=" ++ region ++
    "#InstanceDetails:instanceId=" ++ iid

/-- The `vmId` branch of the status `GET`
    (src/app/api/setup/status/route.ts:41-72): the base projection (with
    `repoCreated` and `telegramConfigured` hardcoded `false`), AWS fields only
    when `provider == 'aws'` (console URL additionally needs truthy instance id
    and region), Orgo fields only when `provider == 'orgo'`. -/
def vmStatusResponse (vm : VMRec) : StatusResponse :=
  let base : StatusResponse :=
    { status := vm.status, vmCreated := vm.vmCreated, repoCreated := false,
      repoCloned := vm.repoCloned, gitSyncConfigured := vm.gitSyncConfigured,
      clawdbotInstalled := vm.clawdbotInstalled, telegramConfigured := false,
      gatewayStarted := vm.gatewayStarted, errorMessage := vm.errorMessage,
      vmProvider := vm.provider, vmId := vm.id, vmName := vm.name }
  if vm.provider = "aws" then
    { base with
      awsInstanceId := some vm.awsInstanceId, awsInstanceType := some vm.awsInstanceType,
      awsPublicIp := some vm.awsPublicIp, awsRegion := some vm.awsRegion,
      awsConsoleUrl :=
        if optTruthy vm.awsInstanceId && optTruthy vm.awsRegion then
          some (awsConsoleUrlOf (vm.awsRegion.getD "") (vm.awsInstanceId.getD ""))
        else none }
  else if vm.provider = "orgo" then
    { base with
      orgoComputerId := some vm.orgoComputerId, orgoComputerUrl := some vm.orgoComputerUrl,
      orgoProjectId := some vm.orgoProjectId, orgoProjectName := some vm.orgoProjectName }
  else base

/-- Key masking from the API-key status `GET`
    (src/app/api/setup/anthropic-key/route.ts:35-37), on the character list of
    the decrypted key: first 12 characters, `...`, last 4 characters when the
    key is longer than 16 characters, `***` otherwise. -/
def maskKey (k : List Char) : List Char :=
  if 16 < k.length then k.take 12 ++ "...".toList ++ k.drop (k.length - 4)
  else "***".toList

/-- Response of the API-key status `GET`. -/
structure KeyStatusResp where
  hasKey : Bool
  maskedKey : Option (List Char)
deriving Repr, DecidableEq

/-- The API-key status `GET` (src/app/api/setup/anthropic-key/route.ts:11-57):
    `storedKey` is the `claudeApiKey` column (`none` = no record or null),
    `decryptRes` the outcome of decrypting it.  A missing/empty key or a
    decryption failure yields `hasKey = false, maskedKey = null`. -/
def keyStatusGET (storedKey : Option String) (decryptRes : Except Err String) :
    KeyStatusResp :=
  match storedKey with
  | none => { hasKey := false, maskedKey := none }
  | some k =>
    if k = "" then { hasKey := false, maskedKey := none }
    else
      match decryptRes with
      | .ok d => { hasKey := true, maskedKey := some (maskKey d.toList) }
      | .error _ => { hasKey := false, maskedKey := none }

/-- A fully provisioned Orgo `VM` record used as a counterexample input. -/
def orgoVmTrue : VMRec :=
  { status := "ready", vmCreated := true, repoCloned := false, gitSyncConfigured := false,
    clawdbotInstalled := true, telegramConfigured := true, gatewayStarted := true,
    errorMessage := none, provider := "orgo", id := "vm-1", name := "my-vm",
    awsInstanceId := none, awsInstanceType := none, awsPublicIp := none, awsRegion := none,
    orgoComputerId := some "c-1", orgoComputerUrl := some "https://c-1", orgoProjectId := some "p-1",
    orgoProjectName := some "claude-brain" }

/-- C9 counterexample: the status route does not return the full projection of
    the stored record — for a VM whose stored `telegramConfigured` is `true`,
    the `vmId` response carries `telegramConfigured = false` (hardcoded at
    src/app/api/setup/status/route.ts:48). -/
theorem C9_counterexample :
    orgoVmTrue.telegramConfigured = true ∧
      (vmStatusResponse orgoVmTrue).telegramConfigured = false := by
  constructor <;> rfl

/-- C9 (amended): for a status query resolving a VM record, the response
    projects `status`, `vmCreated`, `clawdbotInstalled`, `gatewayStarted`,
    `repoCloned`, `gitSyncConfigured`, `errorMessage`, provider, id and name
    from the stored record, while `telegramConfigured` and `repoCreated` are
    hardcoded `false`; the AWS fields are present if and only if
    `provider = 'aws'` (the console URL additionally requires a truthy
    instance id and region), and the Orgo fields are present if and only if
    `provider = 'orgo'`. -/
theorem C9_statusProjection (vm : VMRec) :
    (vmStatusResponse vm).status = vm.status ∧
    (vmStatusResponse vm).vmCreated = vm.vmCreated ∧
    (vmStatusResponse vm).clawdbotInstalled = vm.clawdbotInstalled ∧
    (vmStatusResponse vm).gatewayStarted = vm.gatewayStarted ∧
    (vmStatusResponse vm).repoCloned = vm.repoCloned ∧
    (vmStatusResponse vm).gitSyncConfigured = vm.gitSyncConfigured ∧
    (vmStatusResponse vm).errorMessage = vm.errorMessage ∧
    (vmStatusResponse vm).vmProvider = vm.provider ∧
    (vmStatusResponse vm).vmId = vm.id ∧
    (vmStatusResponse vm).vmName = vm.name ∧
    (vmStatusResponse vm).telegramConfigured = false ∧
    (vmStatusResponse vm).repoCreated = false ∧
    ((vmStatusResponse vm).awsInstanceId.isSome ↔ vm.provider = "aws") ∧
    ((vmStatusResponse vm).awsInstanceType.isSome ↔ vm.provider = "aws") ∧
    ((vmStatusResponse vm).awsPublicIp.isSome ↔ vm.provider = "aws") ∧
    ((vmStatusResponse vm).awsRegion.isSome ↔ vm.provider = "aws") ∧
    ((vmStatusResponse vm).awsConsoleUrl.isSome ↔
      vm.provider = "aws" ∧ optTruthy vm.awsInstanceId = true ∧ optTruthy vm.awsRegion = true) ∧
    ((vmStatusResponse vm).orgoComputerId.isSome ↔ vm.provider = "orgo") ∧
    ((vmStatusResponse vm).orgoComputerUrl.isSome ↔ vm.provider = "orgo") ∧
    ((vmStatusResponse vm).orgoProjectId.isSome ↔ vm.provider = "orgo") ∧
    ((vmStatusResponse vm).orgoProjectName.isSome ↔ vm.provider = "orgo") ∧
    (vm.provider = "aws" →
      (vmStatusResponse vm).awsInstanceId = some vm.awsInstanceId ∧
      (vmStatusResponse vm).awsInstanceType = some vm.awsInstanceType ∧
      (vmStatusResponse vm).awsPublicIp = some vm.awsPublicIp ∧
      (vmStatusResponse vm).awsRegion = some vm.awsRegion) ∧
    (vm.provider = "orgo" →
      (vmStatusResponse vm).orgoComputerId = some vm.orgoComputerId ∧
      (vmStatusResponse vm).orgoComputerUrl = some vm.orgoComputerUrl ∧
      (vmStatusResponse vm).orgoProjectId = some vm.orgoProjectId ∧
      (vmStatusResponse vm).orgoProjectName = some vm.orgoProjectName) := by
  by_cases haws : vm.provider = "aws" <;>
    by_cases horgo : vm.provider = "orgo" <;>
      simp_all [vmStatusResponse]

/-- C10 counterexample: a 19-character key whose characters 12-14 are `...`
    is masked to itself, so the response contains the full plaintext even
    though the key is longer than 16 characters. -/
theorem C10_counterexample :
    16 < ("aaaaaaaaaaaa...bbbb".toList).length ∧
      keyStatusGET (some "stored-cipher") (.ok "aaaaaaaaaaaa...bbbb") =
        { hasKey := true, maskedKey := some ("aaaaaaaaaaaa...bbbb".toList) } := by
  constructor
  · decide
  · rfl

/-- C10 (amended): the key-status endpoint returns `hasKey = false,
    maskedKey = null` when no key is stored, the stored key is empty, or
    decryption fails; for a decryptable stored key it returns `hasKey = true`
    with the mask equal to the first 12 characters, `...`, and the last 4
    characters when the key is longer than 16 characters, and `***`
    otherwise; and for keys longer than 19 characters the full plaintext
    never occurs in the mask. -/
theorem C10_keyStatus :
    keyStatusGET none (.ok "x") = { hasKey := false, maskedKey := none } ∧
    (∀ d, keyStatusGET (some "") d = { hasKey := false, maskedKey := none }) ∧
    (∀ s e, s ≠ "" → keyStatusGET (some s) (.error e) =
      { hasKey := false, maskedKey := none }) ∧
    (∀ s k, s ≠ "" → keyStatusGET (some s) (.ok k) =
      { hasKey := true, maskedKey := some (maskKey k.toList) }) ∧
    (∀ k : List Char, 16 < k.length →
      maskKey k = k.take 12 ++ "...".toList ++ k.drop (k.length - 4)) ∧
    (∀ k : List Char, ¬ 16 < k.length → maskKey k = "***".toList) ∧
    (∀ k : List Char, 19 < k.length → ¬ k <:+: maskKey k) := by
  refine ⟨rfl, fun d => rfl, ?_, ?_, ?_, ?_, ?_⟩
  · intro s e hs
    simp [keyStatusGET, hs]
  · intro s k hs
    simp [keyStatusGET, hs]
  · intro k hk
    simp [maskKey, hk]
  · intro k hk
    simp [maskKey, hk]
  · intro k hk hinf
    have hlen := hinf.length_le
    have h16 : 16 < k.length := by omega
    have : (maskKey k).length = 19 := by
      simp [maskKey, h16]
      omega
    omega

/-- The create path of `awsAcquire` is taken: there is no existing VM record
    holding a truthy instance id together with `vmCreated`. -/
def awsTakesCreatePath (env : AwsEnv) : Prop :=
  ∀ ev iid, env.existingVM = some ev → ev.awsInstanceId = some iid →
    iid = "" ∨ ev.vmCreated = false

theorem awsAcquire_create_error (env : AwsEnv) (ityp : String) (st : State) (e : Err)
    (hpath : awsTakesCreatePath env) (hc : env.createInstanceRes = .error e) :
    ∃ nm, awsAcquire env ityp st =
      (st.upd { status := some "provisioning", vmStatus := some "creating" },
       [.write { status := some "provisioning", vmStatus := some "creating" },
        .createInstance nm ityp], .error e) := by
  cases hEV : env.existingVM with
  | none =>
    exact ⟨"clawdbot-" ++ toString env.now, by unfold awsAcquire; rw [hEV]; simp [hc]⟩
  | some ev =>
    refine ⟨if ev.name = "" then "clawdbot-" ++ toString env.now
            else env.sanitizeName ev.name, ?_⟩
    cases hid : ev.awsInstanceId with
    | none => simp [awsAcquire, hEV, hid, hc]
    | some iid =>
      simp only [awsAcquire, hEV, hid, hc]
      rw [if_neg]
      · simp [hc]
      · intro h
        rw [Bool.and_eq_true] at h
        rcases hpath ev iid hEV hid with h1 | h1
        · exact absurd h1 (by simpa using h.1)
        · rw [h1] at h
          exact Bool.false_ne_true h.2

/-- C2: in the AWS pipeline, an escaped error matching the Free Tier
    signatures terminates the run with `status = requires_payment` and
    `errorMessage = BILLING_REQUIRED:` followed by the requested instance
    type; any other escaped error terminates with `status = failed` and the
    captured message; and a billing error thrown by resource creation leaves
    `vmCreated` false. -/
theorem C2_billingClassification :
    (∀ env ityp st st' tr e, awsBody env ityp st = (st', tr, .error e) →
      isFreeTierError e = true →
      (awsRun env ityp st).1.setup.status = "requires_payment" ∧
      (awsRun env ityp st).1.setup.errorMessage = some ("BILLING_REQUIRED:" ++ ityp)) ∧
    (∀ env ityp st st' tr e, awsBody env ityp st = (st', tr, .error e) →
      isFreeTierError e = false →
      (awsRun env ityp st).1.setup.status = "failed" ∧
      (awsRun env ityp st).1.setup.errorMessage = some e.message) ∧
    (∀ env ityp st e, awsTakesCreatePath env → env.createInstanceRes = .error e →
      isFreeTierError e = true → st.setup.vmCreated = false →
      (awsRun env ityp st).1.setup.status = "requires_payment" ∧
      (awsRun env ityp st).1.setup.vmCreated = false) := by
  refine ⟨?_, ?_, ?_⟩
  · intro env ityp st st' tr e hbody hfree
    simp [awsRun, hbody, hfree, State.upd, Store.apply]
  · intro env ityp st st' tr e hbody hfree
    simp [awsRun, hbody, hfree, State.upd, Store.apply]
  · intro env ityp st e hpath hc hfree hvm
    obtain ⟨nm, hacq⟩ := awsAcquire_create_error env ityp st e hpath hc
    have hbody : awsBody env ityp st =
        (st.upd { status := some "provisioning", vmStatus := some "creating" },
         [.write { status := some "provisioning", vmStatus := some "creating" },
          .createInstance nm ityp], .error e) := by
      unfold awsBody
      rw [hacq]
    simp [awsRun, hbody, hfree, State.upd, Store.apply, hvm]

/-- C2 witness environment: creation rejected with a Free Tier message. -/
def awsEnvBilling : AwsEnv :=
  { existingVM := none,
    getInstanceReuse := .ok { id := "i-0", name := "n" },
    createInstanceRes := .error
      { message := "The specified instance type is not eligible for Free Tier" },
    getInstanceAfterBoot := .ok { id := "i-0", name := "n" },
    getInstanceForIp := .ok { id := "i-0", name := "n" },
    customAmiId := none,
    verifyRes := .ok { installed := true },
    installPythonRes := .ok true,
    installClawdbotRes := .ok { success := true },
    telegramBotToken := none, envTelegramBotToken := none,
    setupTelegramRes := .ok true, startGatewayRes := .ok true,
    decrypt := fun s => s, encrypt := fun s => s,
    sanitizeName := fun s => s, now := 0 }

/-- The empty initial state a freshly reset provisioning run starts from. -/
def st0 : State :=
  { setup :=
    { status := "provisioning", vmCreated := false, clawdbotInstalled := false,
      telegramConfigured := false, gatewayStarted := false, errorMessage := none,
      awsInstanceId := none, awsInstanceName := none, awsPublicIp := none,
      awsPrivateKey := none, orgoProjectId := none, orgoComputerId := none,
      orgoComputerUrl := none, vmStatus := none },
    vm := none }

theorem C2_billingClassification_witness :
    (awsRun awsEnvBilling "t2.large" st0).1.setup.status = "requires_payment" ∧
    (awsRun awsEnvBilling "t2.large" st0).1.setup.vmCreated = false :=
  (C2_billingClassification.2.2) awsEnvBilling "t2.large" st0
    { message := "The specified instance type is not eligible for Free Tier" }
    (fun ev iid h _ => by simp [awsEnvBilling] at h)
    rfl (by decide) rfl

/-- `awsInstall` never calls `createInstance`. -/
lemma awsInstall_no_create (env : AwsEnv) (st : State) (inst : InstInfo) (pk : String)
    (n t : String) : Ev.createInstance n t ∉ (awsInstall env st inst pk).2.1 := by
  unfold awsInstall
  rcases hipr : env.getInstanceForIp with e | i2 <;>
  by_cases htru : optTruthy inst.publicIp = true <;>
  by_cases hami : optTruthy env.customAmiId = true <;>
  rcases hv : env.verifyRes with e4 | v <;>
  rcases hpy : env.installPythonRes with e2 | b <;>
  try cases b <;>
  rcases hcl : env.installClawdbotRes with e3 | r <;>
  try rcases r with ⟨rs, rv⟩ <;>
  try cases rs
  all_goals simp_all

lemma awsMessaging_no_create (env : AwsEnv) (st : State)
    (n t : String) : Ev.createInstance n t ∉ (awsMessaging env st).2.1 := by
  unfold awsMessaging
  rcases htok : optOr env.telegramBotToken env.envTelegramBotToken with _ | tk <;>
  rcases hst : env.setupTelegramRes with e | ts <;>
  try cases ts <;>
  rcases hgw : env.startGatewayRes with e2 | g
  all_goals simp_all
  all_goals split <;> simp_all

lemma awsInstall_has_vmSetup (env : AwsEnv) (st : State) (inst : InstInfo) (pk : String)
    (htru : optTruthy inst.publicIp = true) :
    Ev.vmSetupAws inst.id pk ∈ (awsInstall env st inst pk).2.1 := by
  unfold awsInstall
  by_cases hami : optTruthy env.customAmiId = true <;>
  rcases hv : env.verifyRes with e4 | v <;>
  rcases hpy : env.installPythonRes with e2 | b <;>
  try cases b <;>
  rcases hcl : env.installClawdbotRes with e3 | r <;>
  try rcases r with ⟨rs, rv⟩ <;>
  try cases rs
  all_goals simp_all

end Clawd

namespace Clawd

/-- C7: when the stored VM record holds a truthy `awsInstanceId` with
    `vmCreated = true`, the AWS pipeline never calls `createInstance`; its
    first store write is the `configuring_vm` update carrying the stored
    instance id (with `vmCreated := true`), and configuration proceeds on the
    stored instance id with the decrypted stored private key. -/
theorem C7_reuse (env : AwsEnv) (ityp : String) (st : State) (ev : ExistingVM)
    (iid k ip : String) (awsInst : InstInfo)
    (hEV : env.existingVM = some ev) (hid : ev.awsInstanceId = some iid) (hiid : iid ≠ "")
    (hvc : ev.vmCreated = true) (hreuse : env.getInstanceReuse = .ok awsInst)
    (hpk : ev.awsPrivateKey = some k) (hk : k ≠ "")
    (hip : ev.awsPublicIp = some ip) (hipne : ip ≠ "") :
    (∀ n t, Ev.createInstance n t ∉ (awsRun env ityp st).2) ∧
    (∃ u rest, (awsRun env ityp st).2 = .getInstance iid :: .write u :: rest ∧
       u.status = some "configuring_vm" ∧ u.awsInstanceId = some iid ∧
       u.vmCreated = some true) ∧
    Ev.vmSetupAws iid (env.decrypt k) ∈ (awsRun env ityp st).2 := by
  have hopt : optOr ev.awsPublicIp awsInst.publicIp = some ip := by
    simp [optOr, hip, optTruthy, hipne]
  have hacq : awsAcquire env ityp st =
      (st.upd { status := some "configuring_vm", awsInstanceId := some iid,
                awsInstanceName := some (strOr ev.awsInstanceName ev.name),
                awsPublicIp := some ip, vmStatus := some "running", vmCreated := some true },
       [.getInstance iid,
        .write { status := some "configuring_vm", awsInstanceId := some iid,
                 awsInstanceName := some (strOr ev.awsInstanceName ev.name),
                 awsPublicIp := some ip, vmStatus := some "running", vmCreated := some true }],
       .ok ({ id := iid, name := strOr ev.awsInstanceName ev.name, publicIp := some ip },
            env.decrypt k)) := by
    unfold awsAcquire
    rw [hEV]
    simp [hid, hiid, hvc, hreuse, hpk, hk, hopt]
  have htru : optTruthy (InstInfo.mk iid (strOr ev.awsInstanceName ev.name) (some ip)).publicIp = true := by
    simp [optTruthy, hipne]
  rcases hi2 : awsInstall env
      (st.upd { status := some "configuring_vm", awsInstanceId := some iid,
                awsInstanceName := some (strOr ev.awsInstanceName ev.name),
                awsPublicIp := some ip, vmStatus := some "running", vmCreated := some true })
      { id := iid, name := strOr ev.awsInstanceName ev.name, publicIp := some ip }
      (env.decrypt k) with ⟨st2, tr2, r2⟩
  have hnc2 := fun n t => awsInstall_no_create env
      (st.upd { status := some "configuring_vm", awsInstanceId := some iid,
                awsInstanceName := some (strOr ev.awsInstanceName ev.name),
                awsPublicIp := some ip, vmStatus := some "running", vmCreated := some true })
      { id := iid, name := strOr ev.awsInstanceName ev.name, publicIp := some ip }
      (env.decrypt k) n t
  have hvs2 := awsInstall_has_vmSetup env
      (st.upd { status := some "configuring_vm", awsInstanceId := some iid,
                awsInstanceName := some (strOr ev.awsInstanceName ev.name),
                awsPublicIp := some ip, vmStatus := some "running", vmCreated := some true })
      { id := iid, name := strOr ev.awsInstanceName ev.name, publicIp := some ip }
      (env.decrypt k) htru
  rw [hi2] at hnc2 hvs2
  cases r2 with
  | error e =>
    have hrun : (awsRun env ityp st).2 =
        ([.getInstance iid,
          .write { status := some "configuring_vm", awsInstanceId := some iid,
                   awsInstanceName := some (strOr ev.awsInstanceName ev.name),
                   awsPublicIp := some ip, vmStatus := some "running", vmCreated := some true }]
          ++ tr2) ++
        [.write (if isFreeTierError e then
            { status := some "requires_payment",
              errorMessage := some ("BILLING_REQUIRED:" ++ ityp) }
          else { status := some "failed", errorMessage := some e.message })] := by
      by_cases hf : isFreeTierError e = true <;>
        simp [awsRun, awsBody, hacq, hi2, hf]
    refine ⟨?_, ?_, ?_⟩
    · intro n t
      rw [hrun]
      simp_all
    · refine ⟨_, tr2 ++ [.write _], by simpa using hrun, rfl, rfl, rfl⟩
    · rw [hrun]
      simp [hvs2]
  | ok cres =>
    rcases hm : awsMessaging env st2 with ⟨st3, tr3, r3⟩
    have hnc3 := fun n t => awsMessaging_no_create env st2 n t
    rw [hm] at hnc3
    cases r3 with
    | error e =>
      have hrun : (awsRun env ityp st).2 =
          ([.getInstance iid,
            .write { status := some "configuring_vm", awsInstanceId := some iid,
                     awsInstanceName := some (strOr ev.awsInstanceName ev.name),
                     awsPublicIp := some ip, vmStatus := some "running", vmCreated := some true }]
            ++ tr2 ++ tr3) ++
          [.write (if isFreeTierError e then
              { status := some "requires_payment",
                errorMessage := some ("BILLING_REQUIRED:" ++ ityp) }
            else { status := some "failed", errorMessage := some e.message })] := by
        by_cases hf : isFreeTierError e = true <;>
          simp [awsRun, awsBody, hacq, hi2, hm, hf]
      refine ⟨?_, ?_, ?_⟩
      · intro n t
        rw [hrun]
        simp_all
      · refine ⟨_, tr2 ++ tr3 ++ [.write _], by simpa using hrun, rfl, rfl, rfl⟩
      · rw [hrun]
        simp [hvs2]
    | ok u3 =>
      have hrun : (awsRun env ityp st).2 =
          [.getInstance iid,
           .write { status := some "configuring_vm", awsInstanceId := some iid,
                    awsInstanceName := some (strOr ev.awsInstanceName ev.name),
                    awsPublicIp := some ip, vmStatus := some "running", vmCreated := some true }]
            ++ tr2 ++ tr3 ++ [.write readyUpd] := by
        simp [awsRun, awsBody, hacq, hi2, hm]
      refine ⟨?_, ?_, ?_⟩
      · intro n t
        rw [hrun]
        simp_all [readyUpd]
      · refine ⟨_, tr2 ++ tr3 ++ [.write readyUpd], by simpa using hrun, rfl, rfl, rfl⟩
      · rw [hrun]
        simp [hvs2]


/-- Stored VM record used in the C7 witness: an instance already created. -/
def evReuse : ExistingVM :=
  { awsInstanceId := some "i-9", vmCreated := true, awsInstanceName := some "vm-nine",
    name := "nine", awsPublicIp := some "9.9.9.9", awsPrivateKey := some "CK" }

/-- C7 witness environment: the stored instance exists and is reachable. -/
def awsEnvReuse : AwsEnv :=
  { existingVM := some evReuse,
    getInstanceReuse := .ok { id := "i-9", name := "vm-nine", publicIp := some "9.9.9.9" },
    createInstanceRes := .ok ({ id := "i-x", name := "x" }, "pk"),
    getInstanceAfterBoot := .ok { id := "i-x", name := "x" },
    getInstanceForIp := .ok { id := "i-9", name := "vm-nine", publicIp := some "9.9.9.9" },
    customAmiId := none,
    verifyRes := .ok { installed := true },
    installPythonRes := .ok true,
    installClawdbotRes := .ok { success := true },
    telegramBotToken := none, envTelegramBotToken := none,
    setupTelegramRes := .ok true, startGatewayRes := .ok true,
    decrypt := fun s => "dec-" ++ s, encrypt := fun s => s,
    sanitizeName := fun s => s, now := 0 }

theorem C7_reuse_witness :
    Ev.vmSetupAws "i-9" "dec-CK" ∈ (awsRun awsEnvReuse "t2.micro" st0).2 ∧
    Ev.createInstance "x" "t2.micro" ∉ (awsRun awsEnvReuse "t2.micro" st0).2 :=
  ⟨(C7_reuse awsEnvReuse "t2.micro" st0 evReuse "i-9" "CK" "9.9.9.9"
      { id := "i-9", name := "vm-nine", publicIp := some "9.9.9.9" }
      rfl rfl (by decide) rfl rfl rfl (by decide) rfl (by decide)).2.2,
   (C7_reuse awsEnvReuse "t2.micro" st0 evReuse "i-9" "CK" "9.9.9.9"
      { id := "i-9", name := "vm-nine", publicIp := some "9.9.9.9" }
      rfl rfl (by decide) rfl rfl rfl (by decide) rfl (by decide)).1 "x" "t2.micro"⟩


lemma applyEvs_append (st : State) (l₁ l₂ : List Ev) :
    applyEvs st (l₁ ++ l₂) = applyEvs (applyEvs st l₁) l₂ :=
  List.foldl_append _ _ _ _

lemma awsAcquire_coh (env : AwsEnv) (ityp : String) (st : State) :
    (awsAcquire env ityp st).1 = applyEvs st (awsAcquire env ityp st).2.1 := by
  unfold awsAcquire
  rcases hEV : env.existingVM with _ | ev
  · rcases hcr : env.createInstanceRes with e | cr <;>
      rcases hgb : env.getInstanceAfterBoot with e2 | upd0 <;>
      simp_all [applyEvs]
  · rcases hid : ev.awsInstanceId with _ | iid
    · rcases hcr : env.createInstanceRes with e | cr <;>
        rcases hgb : env.getInstanceAfterBoot with e2 | upd0 <;>
        simp_all [applyEvs]
    · by_cases hc : (decide (iid ≠ "") && ev.vmCreated) = true
      · rcases hgr : env.getInstanceReuse with e3 | awsInst <;>
          simp_all [applyEvs]
      · have hbc : (decide (iid ≠ "") && ev.vmCreated) = false := by
          revert hc
          cases (decide (iid ≠ "") && ev.vmCreated) <;> simp
        simp only [hEV, hid]
        rw [hbc]
        rcases hcr : env.createInstanceRes with e | cr <;>
          rcases hgb : env.getInstanceAfterBoot with e2 | upd0 <;>
          simp_all [applyEvs]

lemma awsInstall_coh (env : AwsEnv) (st : State) (inst : InstInfo) (pk : String) :
    (awsInstall env st inst pk).1 = applyEvs st (awsInstall env st inst pk).2.1 := by
  unfold awsInstall
  rcases hipr : env.getInstanceForIp with e | i2 <;>
  by_cases htru : optTruthy inst.publicIp = true <;>
  by_cases hami : optTruthy env.customAmiId = true <;>
  rcases hv : env.verifyRes with e4 | v <;>
  rcases hpy : env.installPythonRes with e2 | b <;>
  (try cases b) <;>
  rcases hcl : env.installClawdbotRes with e3 | r <;>
  (try rcases r with ⟨rs, rv⟩) <;>
  (try cases rs) <;>
  simp_all [applyEvs]

lemma awsMessaging_coh (env : AwsEnv) (st : State) :
    (awsMessaging env st).1 = applyEvs st (awsMessaging env st).2.1 := by
  unfold awsMessaging
  rcases htok : optOr env.telegramBotToken env.envTelegramBotToken with _ | tk <;>
  (try by_cases htk : tk = "") <;>
  rcases hst : env.setupTelegramRes with e | ts <;>
  (try cases ts) <;>
  rcases hgw : env.startGatewayRes with e2 | g <;>
  simp_all [applyEvs]

lemma awsRun_coh (env : AwsEnv) (ityp : String) (st : State) :
    (awsRun env ityp st).1 = applyEvs st (awsRun env ityp st).2 := by
  unfold awsRun awsBody
  rcases ha : awsAcquire env ityp st with ⟨st1, tr1, r1⟩
  have hca := awsAcquire_coh env ityp st
  rw [ha] at hca
  cases r1 with
  | error e =>
    by_cases hf : isFreeTierError e = true <;>
      simp_all [applyEvs_append, applyEvs, hca]
  | ok p =>
    rcases hi : awsInstall env st1 p.1 p.2 with ⟨st2, tr2, r2⟩
    have hci := awsInstall_coh env st1 p.1 p.2
    rw [hi] at hci
    cases r2 with
    | error e =>
      by_cases hf : isFreeTierError e = true <;>
        simp_all [applyEvs_append, applyEvs, hca]
    | ok cres =>
      rcases hm : awsMessaging env st2 with ⟨st3, tr3, r3⟩
      have hcm := awsMessaging_coh env st2
      rw [hm] at hcm
      cases r3 with
      | error e =>
        by_cases hf : isFreeTierError e = true <;>
          simp_all [applyEvs_append, applyEvs, hca]
      | ok u3 =>
        simp_all [applyEvs_append, applyEvs, hca]



lemma writesOf_append (l₁ l₂ : List Ev) :
    writesOf (l₁ ++ l₂) = writesOf l₁ ++ writesOf l₂ :=
  List.filterMap_append _ _ _

lemma applyEvs_of_no_writes (st : State) (tr : List Ev) (h : writesOf tr = []) :
    applyEvs st tr = st := by
  induction tr generalizing st with
  | nil => rfl
  | cons e tr ih =>
    cases e with
    | write u => simp [writesOf] at h
    | _ =>
      first
      | exact ih st (by simpa [writesOf] using h)

lemma createLoop_no_writes (env : RepEnv) (pid pnl cn : String) (ram cpu : Nat) :
    ∀ f i le, writesOf (createLoop env pid pnl cn ram cpu f i le).1 = [] := by
  intro f
  induction f with
  | zero => intro i le; rfl
  | succ r ih =>
    intro i le
    unfold createLoop
    rcases hca : env.createAttempt i with e | c0
    · by_cases ht : isTimeoutError e = true
      · rcases hlc : env.listComputersAttempt i with e2 | cs
        · by_cases hr : r > 0 <;> simp_all [writesOf_append, writesOf] <;>
            exact ih _ _
        · rcases hf : cs.find? (fun c => c.name == cn) with _ | c <;>
            by_cases hr : r > 0 <;>
            simp [hca, ht, hlc, hf, hr, writesOf_append, writesOf] <;>
            (try exact List.filterMap_eq_nil_iff.mp (ih _ _))
      · by_cases hr : r > 0 <;> simp_all [writesOf_append, writesOf] <;>
          exact ih _ _
    · simp_all [writesOf]

lemma repProject_coh (env : RepEnv) (pn : String) (st : State) :
    (repProject env pn st).1 = applyEvs st (repProject env pn st).2.1 := by
  unfold repProject
  rcases hlp : env.listProjectsRes with e | ps
  · simp [applyEvs]
  · by_cases hid : ((ps.find? (fun p => p.name == pn)).getD { id := "", name := pn }).id = "" <;>
    rcases hcp : env.createProjectRes with e2 | p1 <;>
    simp_all [applyEvs]

lemma repAcquire_coh (env : RepEnv) (pn : String) (hasVm : Bool) (ram cpu : Nat) (st : State) :
    (repAcquire env pn hasVm ram cpu st).1 =
      applyEvs st (repAcquire env pn hasVm ram cpu st).2.1 := by
  unfold repAcquire
  rcases hp : repProject env pn st with ⟨st2, tr2, r2⟩
  have hcp := repProject_coh env pn st
  rw [hp] at hcp
  cases r2 with
  | error e => simpa using hcp
  | ok project =>
    have hnw := createLoop_no_writes env (strOr (some project.id) project.name)
      (strOr (some project.name) pn) (repComputerName env pn hasVm) ram cpu 3 0 none
    rcases hlp : (createLoop env (strOr (some project.id) project.name)
      (strOr (some project.name) pn) (repComputerName env pn hasVm) ram cpu 3 0 none) with ⟨levs, copt, lerr⟩
    rw [hlp] at hnw
    cases copt <;>
      simp_all [applyEvs_append, applyEvs_of_no_writes _ _ hnw, hcp]

lemma repConfigure_coh (env : RepEnv) (prov : String) (c : Computer) (st2 : State) :
    (repConfigure env prov c st2).1 = applyEvs st2 (repConfigure env prov c st2).2.1 := by
  unfold repConfigure
  rcases hpy : env.installPythonRes with e2 | b <;>
  (try cases b) <;>
  rcases hcl : env.installClawdbotRes with e3 | r <;>
  (try rcases r with ⟨rs, rv⟩) <;>
  (try cases rs) <;>
  rcases htok : env.envTelegramBotToken with _ | t <;>
  (try by_cases htk : t = "") <;>
  rcases hst : env.setupTelegramRes with e | ts <;>
  (try cases ts) <;>
  rcases hgw : env.startGatewayRes with e4 | g <;>
  rcases hsk : env.storeKeyRes with e5 | u <;>
  simp_all [applyEvs]

lemma repRun_coh (env : RepEnv) (pn : String) (oc : Option String) (prov : String)
    (ram cpu : Nat) (st : State) :
    (repRun env pn oc prov ram cpu st).1 =
      applyEvs st (repRun env pn oc prov ram cpu st).2 := by
  unfold repRun repBody
  rcases ha : repAcquire env pn st.vm.isSome ram cpu (repDelete oc st).1 with ⟨st2, tr2, r2⟩
  have hca := repAcquire_coh env pn st.vm.isSome ram cpu (repDelete oc st).1
  rw [ha] at hca
  have hd : (repDelete oc st).1 = applyEvs st (repDelete oc st).2 := by
    unfold repDelete
    by_cases ho : optTruthy oc = true <;> simp [ho, applyEvs]
  cases r2 with
  | error e =>
    simp_all [applyEvs_append, applyEvs, hca, hd]
  | ok c =>
    rcases hc : repConfigure env prov c st2 with ⟨st3, tr3, r3⟩
    have hcc := repConfigure_coh env prov c st2
    rw [hc] at hcc
    cases r3 with
    | error e => simp_all [applyEvs_append, applyEvs, hca, hd, hcc]
    | ok u3 => simp_all [applyEvs_append, applyEvs, hca, hd, hcc]



theorem C9_statusProjection_witness :
    (vmStatusResponse orgoVmTrue).status = "ready" ∧
    (vmStatusResponse orgoVmTrue).orgoComputerId = some (some "c-1") := by
  obtain ⟨h1, _h2, _h3, _h4, _h5, _h6, _h7, _h8, _h9, _h10, _h11, _h12, _h13, _h14,
    _h15, _h16, _h17, _h18, _h19, _h20, _h21, _h22, horgo⟩ := C9_statusProjection orgoVmTrue
  exact ⟨h1, (horgo rfl).1⟩

theorem C10_keyStatus_witness :
    keyStatusGET (some "cipher") (.ok "sk-ant-api03-abcdefgh") =
      { hasKey := true, maskedKey := some (maskKey "sk-ant-api03-abcdefgh".toList) } ∧
    ¬ ("sk-ant-api03-abcdefgh12345".toList <:+:
        maskKey "sk-ant-api03-abcdefgh12345".toList) := by
  obtain ⟨-, -, -, h4, -, -, h7⟩ := C10_keyStatus
  exact ⟨h4 "cipher" "sk-ant-api03-abcdefgh" (by decide), h7 _ (by decide)⟩

/-- The clear of the old Orgo handle written by the reprovision pipeline. -/
def clearU : Updates :=
  { orgoComputerId := some "", orgoComputerUrl := some "", vmStatus := some "creating" }

/-- All-success reprovision environment (no Telegram token configured). -/
def repEnvOk : RepEnv :=
  { deleteRes := .ok (),
    listProjectsRes := .ok [{ id := "p1", name := "claude-brain" }],
    createProjectRes := .ok { id := "p1", name := "claude-brain" },
    existingVMName := none,
    createAttempt := fun _ => .ok { id := "c-new", name := "claude-brain", url := "https://u" },
    listComputersAttempt := fun _ => .ok [],
    waitReadyOk := true,
    installPythonRes := .ok true, diagInfo := "",
    installClawdbotRes := .ok { success := true },
    envTelegramBotToken := none,
    setupTelegramRes := .ok true, startGatewayRes := .ok true,
    storeKeyRes := .ok (),
    sanitizeName := fun s => s }

lemma repDelete_fst (oc : Option String) (st : State) :
    (repDelete oc st).1 = st.upd clearU := rfl

/-- The success path of `repConfigure` with no Telegram token: installs
    succeed, the AI key is persisted alone, and `ready` is written last. -/
lemma repConfigure_noTok (env : RepEnv) (prov : String) (c : Computer) (st2 : State)
    (r : ClawdRes)
    (hpy : env.installPythonRes = .ok true)
    (hcl : env.installClawdbotRes = .ok r) (hrs : r.success = true)
    (htok : env.envTelegramBotToken = none) (hsk : env.storeKeyRes = .ok ()) :
    repConfigure env prov c st2 =
      (((((st2.upd { orgoComputerId := some c.id, orgoComputerUrl := some c.url,
                     vmStatus := some "starting" }).upd
            { vmCreated := some true, vmStatus := some "running" }).upd
            { status := some "configuring_vm" }).upd
            { clawdbotInstalled := some true }).upd readyUpd,
       [.write { orgoComputerId := some c.id, orgoComputerUrl := some c.url,
                 vmStatus := some "starting" },
        .waitForReady c.id 30 5000, .sleep 15000,
        .write { vmCreated := some true, vmStatus := some "running" },
        .write { status := some "configuring_vm" }, .vmSetupOrgo c.id,
        .installPython, .installSdk, .installClawdbot,
        .write { clawdbotInstalled := some true },
        .storeKey prov, .write readyUpd],
       .ok ()) := by
  unfold repConfigure
  simp [hpy, hcl, hrs, htok, hsk]

/-- C5: in the reprovision pipeline the best-effort delete's outcome never
    influences the run (the error is caught and ignored); the delete of a
    known old handle is the first provider call; and with a failing delete the
    run can still create a new resource and terminate `ready` with the new
    non-null handle recorded. -/
theorem C5_deleteBestEffort :
    (∀ (env : RepEnv) (pn : String) (oc : Option String) (prov : String)
        (ram cpu : Nat) (st : State) (e : Err),
      repRun { env with deleteRes := .error e } pn oc prov ram cpu st =
        repRun { env with deleteRes := .ok () } pn oc prov ram cpu st) ∧
    (∀ env pn prov ram cpu st oid, oid ≠ "" →
      ∃ rest, (repRun env pn (some oid) prov ram cpu st).2 = .deleteComputer oid :: rest) ∧
    (∀ env pn prov ram cpu st oid e st2 tr2 c r,
      env.deleteRes = .error e →
      repAcquire env pn st.vm.isSome ram cpu (repDelete (some oid) st).1 = (st2, tr2, .ok c) →
      env.installPythonRes = .ok true → env.installClawdbotRes = .ok r → r.success = true →
      env.envTelegramBotToken = none → env.storeKeyRes = .ok () →
      (repRun env pn (some oid) prov ram cpu st).1.setup.status = "ready" ∧
      (repRun env pn (some oid) prov ram cpu st).1.setup.orgoComputerId = some c.id) := by
  refine ⟨?_, ?_, ?_⟩
  · intro env pn oc prov ram cpu st e
    rfl
  · intro env pn prov ram cpu st oid hne
    unfold repRun repBody
    rcases ha : repAcquire env pn st.vm.isSome ram cpu (st.upd clearU)
      with ⟨st2, tr2, r2⟩
    simp only [clearU] at ha
    cases r2 with
    | error e =>
      refine ⟨[.write clearU] ++ tr2 ++
        [.write { status := some "failed", errorMessage := some e.message }], ?_⟩
      simp [ha, repDelete, clearU, optTruthy, hne]
    | ok c =>
      rcases hc : repConfigure env prov c st2 with ⟨st3, tr3, r3⟩
      cases r3 with
      | error e =>
        refine ⟨[.write clearU] ++ tr2 ++ tr3 ++
          [.write { status := some "failed", errorMessage := some e.message }], ?_⟩
        simp [ha, hc, repDelete, clearU, optTruthy, hne]
      | ok u =>
        refine ⟨[.write clearU] ++ tr2 ++ tr3, ?_⟩
        simp [ha, hc, repDelete, clearU, optTruthy, hne]
  · intro env pn prov ram cpu st oid e st2 tr2 c r hdel ha hpy hcl hrs htok hsk
    have hconf := repConfigure_noTok env prov c st2 r hpy hcl hrs htok hsk
    simp only [repRun, repBody]
    rw [ha]
    constructor <;>
      simp [hconf, State.upd, Store.apply, readyUpd]



/-- Reprovision environment whose best-effort delete fails. -/
def repEnvDelFail : RepEnv := { repEnvOk with deleteRes := .error { message := "delete failed" } }

theorem C5_deleteBestEffort_witness :
    (repRun repEnvDelFail "claude-brain" (some "c-old") "anthropic" 4 2 st0).1.setup.status
        = "ready" ∧
    (∃ rest, (repRun repEnvDelFail "claude-brain" (some "c-old") "anthropic" 4 2 st0).2 =
        .deleteComputer "c-old" :: rest) :=
  ⟨(C5_deleteBestEffort.2.2 repEnvDelFail "claude-brain" "anthropic" 4 2 st0 "c-old"
      { message := "delete failed" }
      ((st0.upd clearU).upd { orgoProjectId := some "p1" })
      [.listProjects, .write { orgoProjectId := some "p1" },
       .createComputer "p1" "claude-brain" 4 2]
      { id := "c-new", name := "claude-brain", url := "https://u" }
      { success := true }
      rfl rfl rfl rfl rfl rfl rfl).1,
   C5_deleteBestEffort.2.1 repEnvDelFail "claude-brain" "anthropic" 4 2 st0 "c-old"
      (by decide)⟩


/-- Number of `createComputer` calls in a trace. -/
def createdEvents (tr : List Ev) : Nat :=
  tr.countP (fun e => match e with | .createComputer _ _ _ _ => true | _ => false)

/-- The values written to `orgoComputerId`, in order. -/
def computerIdWrites (tr : List Ev) : List String :=
  (writesOf tr).filterMap (fun u => u.orgoComputerId)

lemma createdEvents_append (l₁ l₂ : List Ev) :
    createdEvents (l₁ ++ l₂) = createdEvents l₁ + createdEvents l₂ :=
  List.countP_append _ _ _

lemma computerIdWrites_append (l₁ l₂ : List Ev) :
    computerIdWrites (l₁ ++ l₂) = computerIdWrites l₁ ++ computerIdWrites l₂ := by
  simp [computerIdWrites, writesOf_append]

lemma createdEvents_nil : createdEvents [] = 0 := rfl

lemma computerIdWrites_nil : computerIdWrites [] = [] := rfl

lemma createdEvents_cons (e : Ev) (tr : List Ev) :
    createdEvents (e :: tr) =
      createdEvents tr + (match e with | .createComputer _ _ _ _ => 1 | _ => 0) := by
  cases e <;> simp [createdEvents, List.countP_cons]

lemma computerIdWrites_cons (e : Ev) (tr : List Ev) :
    computerIdWrites (e :: tr) =
      (match e with | .write u => u.orgoComputerId.toList | _ => []) ++ computerIdWrites tr := by
  cases e with
  | write u => cases hu : u.orgoComputerId <;> simp [computerIdWrites, writesOf, hu]
  | _ => first | simp [computerIdWrites, writesOf]

lemma repProject_ok (env : RepEnv) (pn : String) (st1 : State) (ps : List Project)
    (hlp : env.listProjectsRes = .ok ps) :
    ∃ st2 tr2 project, repProject env pn st1 = (st2, tr2, .ok project) := by
  unfold repProject
  rw [hlp]
  by_cases hid : ((ps.find? (fun p => p.name == pn)).getD { id := "", name := pn }).id = "" <;>
    rcases hcp : env.createProjectRes with e2 | p1 <;>
    simp_all <;> exact ⟨_, _, _, rfl⟩

lemma repProject_trace (env : RepEnv) (pn : String) (st1 : State) :
    createdEvents (repProject env pn st1).2.1 = 0 ∧
    computerIdWrites (repProject env pn st1).2.1 = [] := by
  unfold repProject
  rcases hlp : env.listProjectsRes with e | ps
  · simp [createdEvents, computerIdWrites, writesOf]
  · by_cases hid : ((ps.find? (fun p => p.name == pn)).getD { id := "", name := pn }).id = "" <;>
      rcases hcp : env.createProjectRes with e2 | p1 <;>
      simp_all [createdEvents, computerIdWrites, writesOf]

/-- Timeout on the first creation attempt followed by discovery of a computer
    with the requested name: the loop adopts it after one `createComputer`
    call. -/
lemma createLoop_adopt (env : RepEnv) (pid pnl cn : String) (ram cpu : Nat)
    (e0 : Err) (cs : List Computer) (c : Computer)
    (h0 : env.createAttempt 0 = .error e0) (ht : isTimeoutError e0 = true)
    (hl : env.listComputersAttempt 0 = .ok cs)
    (hf : cs.find? (fun x => x.name == cn) = some c) :
    createLoop env pid pnl cn ram cpu 3 0 none =
      ([.createComputer pid cn ram cpu, .sleep 5000, .listComputers pnl], some c, some e0) := by
  unfold createLoop
  rw [h0]
  simp [ht, hl, hf]

set_option maxHeartbeats 1000000 in
lemma repConfigure_trace_facts (env : RepEnv) (prov : String) (c : Computer) (st2 : State) :
    createdEvents (repConfigure env prov c st2).2.1 = 0 ∧
    computerIdWrites (repConfigure env prov c st2).2.1 = [c.id] ∧
    (repConfigure env prov c st2).1.setup.orgoComputerId = some c.id := by
  unfold repConfigure
  rcases hpy : env.installPythonRes with e2 | b <;>
  (try cases b) <;>
  rcases hcl : env.installClawdbotRes with e3 | r <;>
  (try rcases r with ⟨rs, rv⟩) <;>
  (try cases rs) <;>
  rcases htok : env.envTelegramBotToken with _ | t <;>
  (try by_cases htk : t = "") <;>
  rcases hst : env.setupTelegramRes with e | ts <;>
  (try cases ts) <;>
  rcases hgw : env.startGatewayRes with e4 | g <;>
  rcases hsk : env.storeKeyRes with e5 | uu <;>
  simp_all [createdEvents, computerIdWrites, writesOf, State.upd, Store.apply, readyUpd]

/-- C3: when the first creation attempt throws a timeout-class error and
    listing the project's computers finds one with the requested name, the
    pipeline adopts it: the whole run calls `createComputer` exactly once,
    waits 5s and lists the group right after the failed attempt, records only
    the clear (`""`) and the discovered id in `orgoComputerId`, and the
    persisted record ends holding the discovered computer's id. -/
theorem C3_timeoutDiscovery (env : RepEnv) (pn : String) (oc : Option String)
    (prov : String) (ram cpu : Nat) (st : State) (ps : List Project)
    (e0 : Err) (cs : List Computer) (c : Computer)
    (hlp : env.listProjectsRes = .ok ps)
    (h0 : env.createAttempt 0 = .error e0) (ht : isTimeoutError e0 = true)
    (hl : env.listComputersAttempt 0 = .ok cs)
    (hf : cs.find? (fun x => x.name == repComputerName env pn st.vm.isSome) = some c) :
    createdEvents (repRun env pn oc prov ram cpu st).2 = 1 ∧
    computerIdWrites (repRun env pn oc prov ram cpu st).2 = ["", c.id] ∧
    (∃ pid pnl pre post, (repRun env pn oc prov ram cpu st).2 =
      pre ++ [.createComputer pid (repComputerName env pn st.vm.isSome) ram cpu,
              .sleep 5000, .listComputers pnl] ++ post) ∧
    (repRun env pn oc prov ram cpu st).1.setup.orgoComputerId = some c.id := by
  obtain ⟨st2, tr2, project, hp⟩ :=
    repProject_ok env pn (repDelete oc st).1 ps hlp
  have hptr := repProject_trace env pn (repDelete oc st).1
  rw [hp] at hptr
  have hloop := createLoop_adopt env (strOr (some project.id) project.name)
    (strOr (some project.name) pn) (repComputerName env pn st.vm.isSome) ram cpu
    e0 cs c h0 ht hl hf
  have hacq : repAcquire env pn st.vm.isSome ram cpu (repDelete oc st).1 =
      (st2, tr2 ++ [.createComputer (strOr (some project.id) project.name)
        (repComputerName env pn st.vm.isSome) ram cpu, .sleep 5000,
        .listComputers (strOr (some project.name) pn)], .ok c) := by
    unfold repAcquire
    rw [hp]
    simp [hloop]
  rcases hc : repConfigure env prov c st2 with ⟨st3, tr3, r3⟩
  have hctr := repConfigure_trace_facts env prov c st2
  rw [hc] at hctr
  have hp1 : createdEvents tr2 = 0 := by simpa using hptr.1
  have hp2 : computerIdWrites tr2 = [] := by simpa using hptr.2
  have hc1 : createdEvents tr3 = 0 := by simpa using hctr.1
  have hc2 : computerIdWrites tr3 = [c.id] := by simpa using hctr.2.1
  have hc3 : st3.setup.orgoComputerId = some c.id := by simpa using hctr.2.2
  have hdtr : createdEvents (repDelete oc st).2 = 0 ∧
      computerIdWrites (repDelete oc st).2 = [""] := by
    unfold repDelete
    by_cases ho : optTruthy oc = true <;>
      simp [ho, createdEvents, computerIdWrites, writesOf]
  cases r3 with
  | error e =>
    have hrun : repRun env pn oc prov ram cpu st =
        (st3.upd { status := some "failed", errorMessage := some e.message },
         ((repDelete oc st).2 ++ (tr2 ++ [.createComputer (strOr (some project.id) project.name)
            (repComputerName env pn st.vm.isSome) ram cpu, .sleep 5000,
            .listComputers (strOr (some project.name) pn)]) ++ tr3) ++
          [.write { status := some "failed", errorMessage := some e.message }]) := by
      simp only [repRun, repBody]
      rw [hacq]
      simp [hc]
    rw [hrun]
    refine ⟨?_, ?_, ?_, ?_⟩
    · simp [createdEvents_append, createdEvents_cons, createdEvents_nil, hdtr.1, hp1, hc1]
    · simp [computerIdWrites_append, computerIdWrites_cons, computerIdWrites_nil,
        hdtr.2, hp2, hc2]
    · exact ⟨strOr (some project.id) project.name, strOr (some project.name) pn,
        (repDelete oc st).2 ++ tr2,
        tr3 ++ [.write { status := some "failed", errorMessage := some e.message }], by simp⟩
    · simp [State.upd, Store.apply, hc3]
  | ok uu =>
    have hrun : repRun env pn oc prov ram cpu st =
        (st3, (repDelete oc st).2 ++ (tr2 ++ [.createComputer (strOr (some project.id) project.name)
            (repComputerName env pn st.vm.isSome) ram cpu, .sleep 5000,
            .listComputers (strOr (some project.name) pn)]) ++ tr3) := by
      simp only [repRun, repBody]
      rw [hacq]
      simp [hc]
    rw [hrun]
    refine ⟨?_, ?_, ?_, ?_⟩
    · simp [createdEvents_append, createdEvents_cons, createdEvents_nil, hdtr.1, hp1, hc1]
    · simp [computerIdWrites_append, computerIdWrites_cons, computerIdWrites_nil,
        hdtr.2, hp2, hc2]
    · exact ⟨strOr (some project.id) project.name, strOr (some project.name) pn,
        (repDelete oc st).2 ++ tr2, tr3, by simp⟩
    · exact hc3



/-- C3 witness environment: first creation attempt times out, and listing the
    project's computers finds one with the requested name. -/
def repEnvTimeout : RepEnv :=
  { repEnvOk with
    createAttempt := fun i =>
      if i = 0 then .error { message := "Connection timed out" }
      else .ok { id := "c-second", name := "claude-brain", url := "u2" },
    listComputersAttempt := fun _ =>
      .ok [{ id := "c-found", name := "claude-brain", url := "u3" }] }

theorem C3_timeoutDiscovery_witness :
    createdEvents (repRun repEnvTimeout "claude-brain" (some "c-old") "anthropic" 4 2 st0).2
        = 1 ∧
    (repRun repEnvTimeout "claude-brain" (some "c-old") "anthropic" 4 2
        st0).1.setup.orgoComputerId = some "c-found" := by
  have h := C3_timeoutDiscovery repEnvTimeout "claude-brain" (some "c-old") "anthropic" 4 2 st0
    [{ id := "p1", name := "claude-brain" }] { message := "Connection timed out" }
    [{ id := "c-found", name := "claude-brain", url := "u3" }]
    { id := "c-found", name := "claude-brain", url := "u3" }
    rfl rfl (by decide) rfl (by decide)
  exact ⟨h.1, h.2.2.2⟩

end Clawd
